import Mathlib

/-!
# Shallow embedding of the elevator-judge validator

This file embeds, in Lean 4, the state machine and per-event validators of
`src/judge/judge.py` and the scoring pass of `src/judge/score.py` from the
BUAA_OO_hw7_judge_web repository, and proves properties of that embedding.

Conventions of the embedding:
* In the validator, Python floats (timestamps, speeds, the timing
  constants) are embedded as integer microseconds: the decimal value `t`
  seconds becomes the integer `10^6 * t` (helpers `sec` and `ms` below).
  Every float literal of judge.py has at most six decimal places, so the
  encoding is exact, and it is order- and difference-preserving, so every
  comparison of the source is mirrored faithfully.  The scorer, which
  divides, uses `ℚ` (in seconds) instead.
* Floor indices become `ℤ` (the index of a floor name in the `FLOORS`
  list, so `B4 = 0`, `F1 = 4`, `F7 = 10`).
* Each Python `check_*` handler becomes a function
  `Int → params → SystemState → Except String SystemState`; a `fail(...)` call
  becomes `Except.error` with an abbreviated message, and the state mutations
  performed after the validation checks become the returned updated state.
* Python dictionaries keyed by id become Lean functions (`Nat → Elevator`,
  `Nat → Option Passenger`) or association lists (`active_receives`).
* `state.get_elevator(e_id)` can only return `None` for ids outside 1..6,
  which the output parser already rejects; the embedding therefore keeps the
  elevator table total.
-/

namespace ElevatorJudge

/-- The eleven floor names, ordered bottom to top, from `FLOORS` in judge.py. -/
def FLOORS : List String :=
  ["B4", "B3", "B2", "B1", "F1", "F2", "F3", "F4", "F5", "F6", "F7"]

/-- `FLOOR_MAP`: the index of a floor name in `FLOORS`. -/
def floorIdx (name : String) : Int :=
  (FLOORS.indexOf name : Nat)

def NUM_FLOORS : Int := 11

/-- `n` whole seconds, in the microsecond encoding of times. -/
def sec (n : Int) : Int := 1000000 * n

/-- `n` milliseconds, in the microsecond encoding of times (so the float
`0.4` of the source is `ms 400`). -/
def ms (n : Int) : Int := 1000 * n

/-- `DEFAULT_SPEED = 0.4` seconds per floor. -/
def DEFAULT_SPEED : Int := ms 400

/-- `MIN_DOOR_TIME = 0.4 - 1e-6` in judge.py. -/
def MIN_DOOR_TIME : Int := ms 400 - 1

def CAPACITY : Nat := 6

/-- `SCHE_STOP_TIME = 1.0 - 1e-6` in judge.py.  Defined there but never read
by any validator (see the theorems about CLOSE during SCHE_STOPPING). -/
def SCHE_STOP_TIME : Int := sec 1 - 1

/-- `UPDATE_RESET_TIME = 1.0 - 1e-6`. -/
def UPDATE_RESET_TIME : Int := sec 1 - 1

/-- `SCHE_COMPLETE_TIMEOUT = 6.0 + 1e-6`. -/
def SCHE_COMPLETE_TIMEOUT : Int := sec 6 + 1

/-- `UPDATE_COMPLETE_TIMEOUT = 6.0 + 1e-6`. -/
def UPDATE_COMPLETE_TIMEOUT : Int := sec 6 + 1

/-- `TIME_PRECISION = 1e-6`. -/
def TIME_PRECISION : Int := 1

/-- `ElevatorMode` enum of judge.py. -/
inductive ElevatorMode where
  | NORMAL
  | SCHE_PENDING
  | SCHE_MOVING
  | SCHE_STOPPING
  | UPDATE_PENDING
  | UPDATING
  | DOUBLE_A
  | DOUBLE_B
  | DISABLED
deriving DecidableEq, Repr

/-- `PassengerStatus` enum of judge.py. -/
inductive PassengerStatus where
  | OUTSIDE
  | WAITING
  | INSIDE
  | COMPLETED
  | FAILED_OUT
deriving DecidableEq, Repr

/-- The `double_mode_role` field holds the Python string values, either
the upper carriage role A or the lower carriage role B. -/
inductive Role where
  | A
  | B
deriving DecidableEq, Repr

/-- The `Passenger` record of judge.py (floor names are kept as indices;
the redundant name fields are dropped). -/
structure Passenger where
  id : Nat
  priority : Nat
  from_floor_idx : Int
  to_floor_idx : Int
  request_time : Int
  status : PassengerStatus
  current_floor_idx : Int
  elevator_id : Option Nat
  last_receive_time : Int
  completion_time : Int
deriving DecidableEq, Repr

/-- The `Elevator` record of judge.py.  `passengers` is the set of passenger
ids inside, kept as a duplicate-free list. -/
structure Elevator where
  id : Nat
  current_floor_idx : Int
  door_open : Bool
  passengers : List Nat
  speed : Int
  mode : ElevatorMode
  last_action_time : Int
  last_arrive_time : Int
  last_open_time : Int
  last_close_time : Int
  sche_request_time : Int
  sche_accept_time : Int
  sche_target_floor_idx : Option Int
  sche_temp_speed : Option Int
  sche_begin_time : Int
  sche_arrive_count_since_accept : Nat
  update_request_time : Int
  update_accept_time : Int
  update_partner_id : Option Nat
  update_target_floor_idx : Option Int
  update_begin_time : Int
  update_arrive_count_since_accept : Nat
  double_partner_id : Option Nat
  double_mode_role : Option Role
  double_min_floor_idx : Int
  double_max_floor_idx : Int
deriving DecidableEq, Repr

/-- `Elevator.__init__`: initial elevator state at floor F1 (index 4). -/
def initElevator (i : Nat) : Elevator where
  id := i
  current_floor_idx := 4
  door_open := false
  passengers := []
  speed := DEFAULT_SPEED
  mode := ElevatorMode.NORMAL
  last_action_time := 0
  last_arrive_time := 0
  last_open_time := sec (-1)
  last_close_time := 0
  sche_request_time := sec (-1)
  sche_accept_time := sec (-1)
  sche_target_floor_idx := none
  sche_temp_speed := none
  sche_begin_time := sec (-1)
  sche_arrive_count_since_accept := 0
  update_request_time := sec (-1)
  update_accept_time := sec (-1)
  update_partner_id := none
  update_target_floor_idx := none
  update_begin_time := sec (-1)
  update_arrive_count_since_accept := 0
  double_partner_id := none
  double_mode_role := none
  double_min_floor_idx := 0
  double_max_floor_idx := NUM_FLOORS - 1

/-- `Elevator.get_valid_floor_range`. -/
def getValidFloorRange (e : Elevator) : Int × Int :=
  if e.mode = ElevatorMode.DOUBLE_A ∨ e.mode = ElevatorMode.DOUBLE_B then
    (e.double_min_floor_idx, e.double_max_floor_idx)
  else if e.mode = ElevatorMode.DISABLED then
    (-1, -1)
  else
    (0, NUM_FLOORS - 1)

/-- The `SystemState` of judge.py: the elevator table, the passenger table,
and `active_receives` (passenger id, elevator id, receive time); the key set
of `active_receives` is duplicate-free because `check_receive` refuses a
second receive for a passenger that already has one. -/
structure SystemState where
  elevators : Nat → Elevator
  passengers : Nat → Option Passenger
  active_receives : List (Nat × Nat × Int)

/-- The world at init: all elevators fresh, no passenger rows yet, no
active receives (passenger rows are added while parsing the input file). -/
def initState : SystemState where
  elevators := fun i => initElevator i
  passengers := fun _ => none
  active_receives := []

/-- Store `e` as the elevator record under dictionary key `key` (the Python
code mutates `state.elevators[key]` in place, so the key is the event's
elevator id, not the record's `id` field). -/
def setElevatorAt (st : SystemState) (key : Nat) (e : Elevator) : SystemState :=
  { st with elevators := fun i => if i = key then e else st.elevators i }

/-- Store `p` as the passenger record under dictionary key `key`. -/
def setPassengerAt (st : SystemState) (key : Nat) (p : Passenger) : SystemState :=
  { st with passengers := fun i => if i = key then some p else st.passengers i }

/-- `state.active_receives.get(p_id)`: the first (unique) entry for this
passenger, as (elevator id, receive time). -/
def lookupReceive (l : List (Nat × Nat × Int)) (pid : Nat) : Option (Nat × Int) :=
  (l.find? (fun r => r.1 = pid)).map (fun r => r.2)

/-- `del state.active_receives[p_id]`. -/
def eraseReceive (l : List (Nat × Nat × Int)) (pid : Nat) : List (Nat × Nat × Int) :=
  l.filter (fun r => ¬ r.1 = pid)

/-- The double-carriage collision checks of `check_arrive`: partner lookup,
same-floor collision, and the carriage-B-above-carriage-A checks. -/
def doubleArriveCheck (floor_idx : Int) (e_id : Nat) (elevator : Elevator)
    (st : SystemState) : Except String Unit :=
  if elevator.mode = ElevatorMode.DOUBLE_A ∨ elevator.mode = ElevatorMode.DOUBLE_B then
    match elevator.double_partner_id with
    | none => Except.error "ARRIVE: double carriage partner not found"
    | some pid =>
      let partner := st.elevators pid
      if floor_idx = partner.current_floor_idx then
        Except.error "ARRIVE: double carriages collided"
      else
        let elevA := if elevator.double_mode_role = some Role.A then elevator else partner
        let elevB := if elevator.double_mode_role = some Role.A then partner else elevator
        if elevB.current_floor_idx > elevA.current_floor_idx then
          if e_id = elevB.id ∧ floor_idx > elevA.current_floor_idx then
            Except.error "ARRIVE: carriage B moved above carriage A"
          else if e_id = elevA.id ∧ elevB.current_floor_idx > floor_idx then
            Except.error "ARRIVE: carriage B ended up above carriage A"
          else
            Except.ok ()
        else
          Except.ok ()
  else
    Except.ok ()

/-- The state update of `check_arrive` (applied after all validation):
floor, action/arrive clocks, and the pending-task arrive counters. -/
def arrivedElevator (timestamp : Int) (floor_idx : Int) (elevator : Elevator) : Elevator :=
  { elevator with
    current_floor_idx := floor_idx
    last_action_time := timestamp
    last_arrive_time := timestamp
    sche_arrive_count_since_accept :=
      if elevator.mode = ElevatorMode.SCHE_PENDING then
        elevator.sche_arrive_count_since_accept + 1
      else elevator.sche_arrive_count_since_accept
    update_arrive_count_since_accept :=
      if elevator.mode = ElevatorMode.UPDATE_PENDING then
        elevator.update_arrive_count_since_accept + 1
      else elevator.update_arrive_count_since_accept }

/-- `check_arrive` of judge.py: door, mode, floor-range, one-step movement
and speed-timing preconditions, then the double-carriage collision checks,
then the state update. -/
def checkArrive (timestamp : Int) (floor_idx : Int) (e_id : Nat)
    (st : SystemState) : Except String SystemState :=
  let elevator := st.elevators e_id
  if elevator.door_open then
    Except.error "ARRIVE: door open"
  else if elevator.mode = ElevatorMode.UPDATING then
    Except.error "ARRIVE: moved during UPDATE"
  else if elevator.mode = ElevatorMode.DISABLED then
    Except.error "ARRIVE: moved after being disabled by UPDATE"
  else
    let range := getValidFloorRange elevator
    if ¬ (range.1 ≤ floor_idx ∧ floor_idx ≤ range.2) then
      Except.error "ARRIVE: moved outside its valid range"
    else if ¬ (floor_idx - elevator.current_floor_idx).natAbs = 1 then
      Except.error "ARRIVE: jumped floors"
    else if timestamp - elevator.last_action_time < elevator.speed - TIME_PRECISION then
      Except.error "ARRIVE: moved too fast"
    else
      match doubleArriveCheck floor_idx e_id elevator st with
      | Except.error msg => Except.error msg
      | Except.ok _ =>
        Except.ok (setElevatorAt st e_id (arrivedElevator timestamp floor_idx elevator))

/-- `check_open` of judge.py. -/
def checkOpen (timestamp : Int) (floor_idx : Int) (e_id : Nat)
    (st : SystemState) : Except String SystemState :=
  let elevator := st.elevators e_id
  if ¬ elevator.current_floor_idx = floor_idx then
    Except.error "OPEN: wrong floor"
  else if elevator.door_open then
    Except.error "OPEN: already open"
  else if elevator.mode = ElevatorMode.SCHE_MOVING ∧
      ¬ some elevator.current_floor_idx = elevator.sche_target_floor_idx then
    Except.error "OPEN: opened door during SCHE movement"
  else if elevator.mode = ElevatorMode.UPDATING then
    Except.error "OPEN: opened door during UPDATE"
  else if elevator.mode = ElevatorMode.DISABLED then
    Except.error "OPEN: opened door after being disabled"
  else if timestamp < elevator.last_arrive_time - TIME_PRECISION ∧
      ¬ (elevator.current_floor_idx = floorIdx "F1" ∧ timestamp < TIME_PRECISION) then
    Except.error "OPEN: opened before arriving"
  else
    let e' := { elevator with
      door_open := true
      last_action_time := timestamp
      last_open_time := timestamp
      mode :=
        if elevator.mode = ElevatorMode.SCHE_MOVING ∧
            some elevator.current_floor_idx = elevator.sche_target_floor_idx then
          ElevatorMode.SCHE_STOPPING
        else elevator.mode }
    Except.ok (setElevatorAt st e_id e')

/-- `check_close` of judge.py.  Note: the only timing condition is
`time_since_open < MIN_DOOR_TIME`; no branch consults `SCHE_STOP_TIME` or
the SCHE_STOPPING mode. -/
def checkClose (timestamp : Int) (floor_idx : Int) (e_id : Nat)
    (st : SystemState) : Except String SystemState :=
  let elevator := st.elevators e_id
  if ¬ elevator.current_floor_idx = floor_idx then
    Except.error "CLOSE: wrong floor"
  else if ¬ elevator.door_open then
    Except.error "CLOSE: already closed"
  else if elevator.mode = ElevatorMode.DISABLED then
    Except.error "CLOSE: closed door after being disabled"
  else if timestamp - elevator.last_open_time < MIN_DOOR_TIME then
    Except.error "CLOSE: closed door too fast"
  else
    let e' := { elevator with
      door_open := false
      last_action_time := timestamp
      last_close_time := timestamp }
    Except.ok (setElevatorAt st e_id e')

/-- `check_in` of judge.py.  Note the source's comment: IN/OUT are
instantaneous and do not update `last_action_time`; also note the source
does not remove the active receive on IN (only OUT does). -/
def checkIn (timestamp : Int) (p_id : Nat) (floor_idx : Int) (e_id : Nat)
    (st : SystemState) : Except String SystemState :=
  let elevator := st.elevators e_id
  match st.passengers p_id with
  | none => Except.error "IN: passenger does not exist"
  | some passenger =>
    if ¬ elevator.current_floor_idx = floor_idx then
      Except.error "IN: elevator at wrong floor"
    else if ¬ elevator.door_open then
      Except.error "IN: door closed"
    else if elevator.passengers.length ≥ CAPACITY then
      Except.error "IN: exceeded capacity"
    else if ¬ passenger.status = PassengerStatus.WAITING then
      Except.error "IN: passenger not WAITING"
    else if ¬ passenger.current_floor_idx = floor_idx then
      Except.error "IN: passenger at wrong floor"
    else if ¬ passenger.elevator_id = some e_id then
      Except.error "IN: received by another elevator"
    else
      match lookupReceive st.active_receives p_id with
      | none => Except.error "IN: no valid preceding RECEIVE"
      | some (rid, rtime) =>
        if ¬ rid = e_id then
          Except.error "IN: no valid preceding RECEIVE"
        else if timestamp < rtime - TIME_PRECISION then
          Except.error "IN: entered before being received"
        else if elevator.mode = ElevatorMode.SCHE_STOPPING then
          Except.error "IN: entered during SCHE stop phase"
        else
          let p' := { passenger with status := PassengerStatus.INSIDE }
          let e' := { elevator with
            passengers :=
              if p_id ∈ elevator.passengers then elevator.passengers
              else p_id :: elevator.passengers }
          Except.ok (setElevatorAt (setPassengerAt st p_id p') e_id e')

/-- `check_out` of judge.py; `success = true` is OUT-S, `false` is OUT-F. -/
def checkOut (timestamp : Int) (success : Bool) (p_id : Nat) (floor_idx : Int)
    (e_id : Nat) (st : SystemState) : Except String SystemState :=
  let elevator := st.elevators e_id
  match st.passengers p_id with
  | none => Except.error "OUT: passenger does not exist"
  | some passenger =>
    if ¬ elevator.current_floor_idx = floor_idx then
      Except.error "OUT: elevator at wrong floor"
    else if ¬ elevator.door_open then
      Except.error "OUT: door closed"
    else if ¬ passenger.status = PassengerStatus.INSIDE then
      Except.error "OUT: passenger not INSIDE"
    else if ¬ passenger.elevator_id = some e_id then
      Except.error "OUT: recorded in another elevator"
    else if success ∧ ¬ passenger.to_floor_idx = floor_idx then
      Except.error "OUT-S: not the destination"
    else
      let p' := { passenger with
        elevator_id := none
        current_floor_idx := floor_idx
        status :=
          if success then PassengerStatus.COMPLETED
          else if elevator.mode = ElevatorMode.SCHE_STOPPING then
            PassengerStatus.FAILED_OUT
          else PassengerStatus.OUTSIDE
        completion_time := if success then timestamp else passenger.completion_time }
      let e' := { elevator with
        passengers := elevator.passengers.filter (fun x => ¬ x = p_id) }
      let st' := setElevatorAt (setPassengerAt st p_id p') e_id e'
      let receives' :=
        match lookupReceive st.active_receives p_id with
        | some (rid, _) =>
          if rid = e_id then eraseReceive st.active_receives p_id
          else st.active_receives
        | none => st.active_receives
      Except.ok { st' with active_receives := receives' }

/-- `check_receive` of judge.py.  RECEIVE is instantaneous: it does not
update `last_action_time`. -/
def checkReceive (timestamp : Int) (p_id : Nat) (e_id : Nat)
    (st : SystemState) : Except String SystemState :=
  let elevator := st.elevators e_id
  match st.passengers p_id with
  | none => Except.error "RECEIVE: passenger does not exist"
  | some passenger =>
    if ¬ (passenger.status = PassengerStatus.OUTSIDE ∨
        passenger.status = PassengerStatus.FAILED_OUT) then
      Except.error "RECEIVE: passenger status not OUTSIDE or FAILED_OUT"
    else if ¬ lookupReceive st.active_receives p_id = none then
      Except.error "RECEIVE: already has an active receive"
    else if elevator.mode = ElevatorMode.SCHE_MOVING ∨
        elevator.mode = ElevatorMode.SCHE_STOPPING ∨
        elevator.mode = ElevatorMode.UPDATING ∨
        elevator.mode = ElevatorMode.DISABLED then
      Except.error "RECEIVE: elevator mode forbids RECEIVE"
    else
      -- The source remarks here that the empty-elevator movement constraint
      -- is tricky to check and defers it to a verification upon ARRIVE that
      -- is never performed.
      let p' := { passenger with
        status := PassengerStatus.WAITING
        elevator_id := some e_id
        last_receive_time := timestamp }
      let st' := setPassengerAt st p_id p'
      Except.ok { st' with
        active_receives := (p_id, e_id, timestamp) :: st'.active_receives }

/-- `check_sche_accept` of judge.py.  The `last_action_time` update is
commented out in the source, so the action clock is untouched. -/
def checkScheAccept (timestamp : Int) (e_id : Nat) (speed : Int) (target_floor_idx : Int)
    (st : SystemState) : Except String SystemState :=
  let elevator := st.elevators e_id
  if ¬ elevator.mode = ElevatorMode.NORMAL then
    Except.error "SCHE-ACCEPT: not in NORMAL mode"
  else if ¬ elevator.update_partner_id = none then
    Except.error "SCHE-ACCEPT: after being involved in UPDATE"
  else
    let e' := { elevator with
      mode := ElevatorMode.SCHE_PENDING
      sche_request_time := timestamp
      sche_accept_time := timestamp
      sche_target_floor_idx := some target_floor_idx
      sche_temp_speed := some speed
      sche_arrive_count_since_accept := 0 }
    Except.ok (setElevatorAt st e_id e')

/-- One iteration of the receive-cancellation loops of `check_sche_begin`
and `check_update_begin`: a waiting passenger reverts to OUTSIDE with no
elevator binding. -/
def cancelStep (acc : SystemState) (r : Nat × Nat × Int) : SystemState :=
  match acc.passengers r.1 with
  | some p =>
    if p.status = PassengerStatus.WAITING then
      setPassengerAt acc r.1 { p with
        status := PassengerStatus.OUTSIDE
        elevator_id := none }
    else acc
  | none => acc

/-- Cancel the active receives held by the elevators in `eids`: waiting
passengers revert to OUTSIDE, and the receive entries are dropped (the
cancellation loops of `check_sche_begin` and `check_update_begin`). -/
def cancelReceivesFor (eids : List Nat) (st : SystemState) : SystemState :=
  let toCancel := st.active_receives.filter (fun r => r.2.1 ∈ eids)
  let st' := toCancel.foldl cancelStep st
  { st' with active_receives := st'.active_receives.filter (fun r => ¬ r.2.1 ∈ eids) }

/-- `check_sche_begin` of judge.py.  The `last_action_time` update is
commented out in the source.  `sche_temp_speed` is always set in
SCHE_PENDING mode (established by `check_sche_accept`); the `getD` default
is irrelevant on reachable states. -/
def checkScheBegin (timestamp : Int) (e_id : Nat)
    (st : SystemState) : Except String SystemState :=
  let elevator := st.elevators e_id
  if ¬ elevator.mode = ElevatorMode.SCHE_PENDING then
    Except.error "SCHE-BEGIN: not in SCHE_PENDING mode"
  else if elevator.door_open then
    Except.error "SCHE-BEGIN: started SCHE with door open"
  else if elevator.sche_arrive_count_since_accept > 2 then
    Except.error "SCHE-BEGIN: more than 2 ARRIVEs since SCHE-ACCEPT"
  else
    let e' := { elevator with
      mode := ElevatorMode.SCHE_MOVING
      speed := elevator.sche_temp_speed.getD elevator.speed
      sche_begin_time := timestamp }
    Except.ok (cancelReceivesFor [e_id] (setElevatorAt st e_id e'))

/-- `check_sche_end` of judge.py.  The `last_action_time` update is
commented out in the source. -/
def checkScheEnd (timestamp : Int) (e_id : Nat)
    (st : SystemState) : Except String SystemState :=
  let elevator := st.elevators e_id
  if ¬ elevator.mode = ElevatorMode.SCHE_STOPPING then
    Except.error "SCHE-END: not in SCHE_STOPPING mode"
  else if elevator.door_open then
    Except.error "SCHE-END: ended SCHE with door open"
  else if ¬ elevator.passengers = [] then
    Except.error "SCHE-END: passengers still inside"
  else if ¬ some elevator.current_floor_idx = elevator.sche_target_floor_idx then
    Except.error "SCHE-END: not at the scheduled target"
  else if timestamp < elevator.last_close_time - TIME_PRECISION then
    Except.error "SCHE-END: before the final CLOSE"
  else if timestamp - elevator.sche_accept_time > SCHE_COMPLETE_TIMEOUT then
    Except.error "SCHE-END: completion time exceeded limit"
  else
    let e' := { elevator with
      mode := ElevatorMode.NORMAL
      speed := DEFAULT_SPEED
      sche_request_time := sec (-1)
      sche_accept_time := sec (-1)
      sche_target_floor_idx := none
      sche_temp_speed := none
      sche_begin_time := sec (-1)
      sche_arrive_count_since_accept := 0 }
    Except.ok (setElevatorAt st e_id e')

/-- `check_update_accept` of judge.py.  The prior-SCHE check reads
`sche_request_time`, which `check_sche_end` resets to -1. -/
def checkUpdateAccept (timestamp : Int) (a_id b_id : Nat) (target_floor_idx : Int)
    (st : SystemState) : Except String SystemState :=
  let elevator_a := st.elevators a_id
  let elevator_b := st.elevators b_id
  if ¬ (elevator_a.mode = ElevatorMode.NORMAL ∧ elevator_b.mode = ElevatorMode.NORMAL) then
    Except.error "UPDATE-ACCEPT: not in NORMAL mode"
  else if ¬ (elevator_a.sche_request_time = sec (-1) ∧ elevator_b.sche_request_time = sec (-1)) then
    Except.error "UPDATE-ACCEPT: after being involved in SCHE"
  else if ¬ (elevator_a.update_partner_id = none ∧ elevator_b.update_partner_id = none) then
    Except.error "UPDATE-ACCEPT: after already being involved in UPDATE"
  else
    let mk := fun (e : Elevator) => { e with
      mode := ElevatorMode.UPDATE_PENDING
      update_request_time := timestamp
      update_accept_time := timestamp
      update_partner_id := some (if e.id = a_id then b_id else a_id)
      update_target_floor_idx := some target_floor_idx
      update_arrive_count_since_accept := 0 }
    Except.ok (setElevatorAt (setElevatorAt st a_id (mk elevator_a)) b_id (mk elevator_b))

/-- `check_update_begin` of judge.py.  No branch reads
`update_arrive_count_since_accept`: the source's comment says the
passenger-release-within-2-ARRIVEs check is complex and skips it. -/
def checkUpdateBegin (timestamp : Int) (a_id b_id : Nat)
    (st : SystemState) : Except String SystemState :=
  let elevator_a := st.elevators a_id
  let elevator_b := st.elevators b_id
  if ¬ (elevator_a.mode = ElevatorMode.UPDATE_PENDING ∧
      elevator_b.mode = ElevatorMode.UPDATE_PENDING) then
    Except.error "UPDATE-BEGIN: not in UPDATE_PENDING mode"
  else if ¬ (elevator_a.update_partner_id = some b_id ∧
      elevator_b.update_partner_id = some a_id) then
    Except.error "UPDATE-BEGIN: mismatched partners"
  else if elevator_a.door_open ∨ elevator_b.door_open then
    Except.error "UPDATE-BEGIN: started UPDATE with door open"
  else if ¬ (elevator_a.passengers = [] ∧ elevator_b.passengers = []) then
    Except.error "UPDATE-BEGIN: started UPDATE with passengers inside"
  else
    let mk := fun (e : Elevator) => { e with
      mode := ElevatorMode.UPDATING
      update_begin_time := timestamp }
    Except.ok (cancelReceivesFor [a_id, b_id]
      (setElevatorAt (setElevatorAt st a_id (mk elevator_a)) b_id (mk elevator_b)))

/-- The final record of the original elevator `a` after UPDATE-END: the
source first assigns `elevator_a.mode = DISABLED` (the vacated shaft) and
then immediately re-purposes the very same record as carriage A with
`mode = DOUBLE_A`; both sequential updates are reproduced here, so no
elevator record is left in DISABLED mode. -/
def carriageA_record (target_floor_idx : Int) (b_id : Nat)
    (elevator_a : Elevator) : Elevator :=
  let ea1 := { elevator_a with
    mode := ElevatorMode.DISABLED
    double_partner_id := none }
  { ea1 with
    mode := ElevatorMode.DOUBLE_A
    double_mode_role := some Role.A
    double_partner_id := some b_id
    current_floor_idx := target_floor_idx + 1
    double_min_floor_idx := target_floor_idx
    double_max_floor_idx := NUM_FLOORS - 1
    speed := ms 200
    door_open := false
    passengers := []
    sche_request_time := sec (-1)
    update_request_time := sec (-1) }

/-- The final record of elevator `b` after UPDATE-END: carriage B. -/
def carriageB_record (target_floor_idx : Int) (a_id : Nat)
    (elevator_b : Elevator) : Elevator :=
  { elevator_b with
    mode := ElevatorMode.DOUBLE_B
    double_mode_role := some Role.B
    double_partner_id := some a_id
    current_floor_idx := target_floor_idx - 1
    double_min_floor_idx := 0
    double_max_floor_idx := target_floor_idx
    speed := ms 200
    door_open := false
    passengers := []
    sche_request_time := sec (-1)
    update_request_time := sec (-1) }

/-- `check_update_end` of judge.py.  The source first assigns
`elevator_a.mode = DISABLED` and then immediately re-purposes the very same
record as carriage A with `mode = DOUBLE_A`; the net effect, reproduced
here as the same two sequential record updates, leaves no elevator record
in DISABLED mode.  `update_target_floor_idx` is always set in UPDATING mode
(established by `check_update_accept`). -/
def checkUpdateEnd (timestamp : Int) (a_id b_id : Nat)
    (st : SystemState) : Except String SystemState :=
  let elevator_a := st.elevators a_id
  let elevator_b := st.elevators b_id
  if ¬ (elevator_a.mode = ElevatorMode.UPDATING ∧
      elevator_b.mode = ElevatorMode.UPDATING) then
    Except.error "UPDATE-END: not in UPDATING mode"
  else if ¬ (elevator_a.update_partner_id = some b_id ∧
      elevator_b.update_partner_id = some a_id) then
    Except.error "UPDATE-END: mismatched partners"
  else if timestamp - elevator_a.update_begin_time < UPDATE_RESET_TIME then
    Except.error "UPDATE-END: update duration too short"
  else if timestamp - elevator_a.update_accept_time > UPDATE_COMPLETE_TIMEOUT then
    Except.error "UPDATE-END: completion time exceeded limit"
  else
    let target_floor_idx := elevator_a.update_target_floor_idx.getD 0
    let ea2 := carriageA_record target_floor_idx b_id elevator_a
    let eb' := carriageB_record target_floor_idx a_id elevator_b
    -- Validate initial positions after update
    if ¬ (0 ≤ eb'.current_floor_idx ∧ eb'.current_floor_idx < NUM_FLOORS) then
      Except.error "UPDATE-END: carriage B initial position out of bounds"
    else if ¬ (0 ≤ ea2.current_floor_idx ∧ ea2.current_floor_idx < NUM_FLOORS) then
      Except.error "UPDATE-END: carriage A initial position out of bounds"
    else if eb'.current_floor_idx ≥ ea2.current_floor_idx then
      Except.error "UPDATE-END: carriage B not below carriage A"
    else
      Except.ok (setElevatorAt (setElevatorAt st a_id ea2) b_id eb')

/-! ## Scorer (`src/judge/score.py`)

`Score.parse_input` fills `passenger_requests : {pid ↦ (request_time,
priority, from, to)}` and `Score.parse_output` fills `passenger_completions
: {pid ↦ completion_time}` (only OUT-S lines).  Both are Python dicts, so
their key sets are duplicate-free; they are embedded as association lists,
with the floor fields dropped because the WT computation never reads them. -/

/-- One row of `Score.passenger_requests`. -/
structure ReqEntry where
  pid : Nat
  request_time : ℚ
  priority : Nat
deriving DecidableEq, Repr

/-- One row of `Score.passenger_completions` (only successful OUT-S). -/
structure CompEntry where
  pid : Nat
  completion_time : ℚ
deriving DecidableEq, Repr

/-- `passenger_id in passenger_requests` plus `passenger_requests[pid]`. -/
def findReq (reqs : List ReqEntry) (k : Nat) : Option ReqEntry :=
  reqs.find? (fun r => r.pid = k)

/-- Dictionary access into the completion table. -/
def findComp (comps : List CompEntry) (k : Nat) : Option CompEntry :=
  comps.find? (fun c => c.pid = k)

/-- The accumulation loop of `Score.calculate_average_completion_time`,
parameterised by the quantity summed per completed-and-requested passenger:
the loop walks the completion table, skips ids absent from the request
table, and adds `f request completion` for the rest (addition on `ℚ` is
commutative and associative, so the fold direction is irrelevant). -/
def matchSumC (reqs : List ReqEntry) (f : ReqEntry → CompEntry → ℚ) :
    List CompEntry → ℚ
  | [] => 0
  | c :: cs =>
    (match findReq reqs c.pid with
     | some r => f r c
     | none => 0) + matchSumC reqs f cs

/-- The same sum walked from the request-table side: for each passenger of
the input, add `f request completion` when that passenger has a completion.
This is the orientation in which the specification document states WT
(an average across the passengers of the input). -/
def matchSumR (comps : List CompEntry) (f : ReqEntry → CompEntry → ℚ) :
    List ReqEntry → ℚ
  | [] => 0
  | r :: rs =>
    (match findComp comps r.pid with
     | some c => f r c
     | none => 0) + matchSumR comps f rs

/-- The weighted completion duration `(completion_time - request_time) * priority`. -/
def weightedDuration (r : ReqEntry) (c : CompEntry) : ℚ :=
  (c.completion_time - r.request_time) * (r.priority : ℚ)

/-- The weight `priority` of one completed passenger. -/
def completionWeight (r : ReqEntry) (_ : CompEntry) : ℚ :=
  (r.priority : ℚ)

/-- `Score.calculate_average_completion_time`: walks the completion table,
accumulates priority-weighted durations and total weight over the
passengers present in both tables, and returns `0.0` when the total weight
is zero, else the quotient. -/
def calculate_average_completion_time (reqs : List ReqEntry)
    (comps : List CompEntry) : ℚ :=
  let total_weighted_time := matchSumC reqs weightedDuration comps
  let total_weight := matchSumC reqs completionWeight comps
  if total_weight = 0 then 0 else total_weighted_time / total_weight

/-- Modelled from the spec (section 4.4): the WT metric as the specification
document words it, for comparison with `calculate_average_completion_time`:
the priority-weighted average of `completion_time - request_time` across all
passengers of the input, and `none` (reported as infinite) whenever at
least one passenger of the input has no successful OUT-S completion. -/
def WT_specWords (reqs : List ReqEntry) (comps : List CompEntry) : Option ℚ :=
  if reqs.all (fun r => ¬ findComp comps r.pid = none) then
    let total_weighted_time := matchSumR comps weightedDuration reqs
    let total_weight := matchSumR comps completionWeight reqs
    some (if total_weight = 0 then 0 else total_weighted_time / total_weight)
  else
    none

/-! ## Example fixtures

Concrete states used by the counterexamples and witnesses below. -/

/-- A passenger fresh from the input roster (the defaults of
`Passenger.__init__`): id 100, priority 5, F1 to F3, requested at 1.0. -/
def exPassenger100 : Passenger where
  id := 100
  priority := 5
  from_floor_idx := 4
  to_floor_idx := 6
  request_time := sec 1
  status := PassengerStatus.OUTSIDE
  current_floor_idx := 4
  elevator_id := none
  last_receive_time := sec (-1)
  completion_time := sec (-1)

/-- Elevators 1 and 2 mid-UPDATE (between UPDATE-BEGIN at 10.0 and the
coming UPDATE-END), target floor F3 (index 6), with passenger 100 still
outside; reachable by SCHE-free prefix ACCEPT at 9.0, BEGIN at 10.0. -/
def exUpdSt : SystemState where
  elevators := fun i =>
    if i = 1 then
      { initElevator 1 with
        mode := ElevatorMode.UPDATING
        update_partner_id := some 2
        update_request_time := sec 9
        update_accept_time := sec 9
        update_begin_time := sec 10
        update_target_floor_idx := some 6 }
    else if i = 2 then
      { initElevator 2 with
        mode := ElevatorMode.UPDATING
        update_partner_id := some 1
        update_request_time := sec 9
        update_accept_time := sec 9
        update_begin_time := sec 10
        update_target_floor_idx := some 6 }
    else initElevator i
  passengers := fun i => if i = 100 then some exPassenger100 else none
  active_receives := []

/-- The state after the accepted `UPDATE-END-1-2` at 11.5 on `exUpdSt`. -/
def exAfterUpdEnd : SystemState :=
  (checkUpdateEnd (ms 11500) 1 2 exUpdSt).toOption.getD exUpdSt

/-- Elevator 3 during its SCHE stop: arrived at the scheduled target F3
(index 6) and opened the door there at 10.0, which switched it to
SCHE_STOPPING. -/
def exScheStopSt : SystemState where
  elevators := fun i =>
    if i = 3 then
      { initElevator 3 with
        mode := ElevatorMode.SCHE_STOPPING
        door_open := true
        current_floor_idx := 6
        speed := ms 300
        sche_request_time := sec 8
        sche_accept_time := sec 8
        sche_target_floor_idx := some 6
        sche_temp_speed := some (ms 300)
        sche_begin_time := sec 9
        last_action_time := sec 10
        last_arrive_time := ms 9800
        last_open_time := sec 10 }
    else initElevator i
  passengers := fun _ => none
  active_receives := []

/-- The state after the accepted `SCHE-ACCEPT-1-0.3-F3` at 5.0 on the
initial world. -/
def exSchePendSt : SystemState :=
  (checkScheAccept (sec 5) 1 (ms 300) 6 initState).toOption.getD initState

/-- The full SCHE cycle of elevator 1 (ACCEPT 1.0, BEGIN 2.0, ARRIVE 2.3
and 2.6 up to the target F3, OPEN 2.6, CLOSE 3.7, END 3.7), followed by
`UPDATE-ACCEPT-1-2-F3` at 5.0. -/
def exC4BeforeUpdate : Except String SystemState :=
  checkScheAccept (sec 1) 1 (ms 300) 6 initState >>=
  checkScheBegin (sec 2) 1 >>=
  checkArrive (ms 2300) 5 1 >>=
  checkArrive (ms 2600) 6 1 >>=
  checkOpen (ms 2600) 6 1 >>=
  checkClose (ms 3700) 6 1 >>=
  checkScheEnd (ms 3700) 1

/-- The state reached by `exC4BeforeUpdate`. -/
def exC4After : SystemState :=
  exC4BeforeUpdate.toOption.getD initState

/-- Elevator 4 idle in NORMAL mode with its door opened at 10.0 at F2. -/
def exOpenSt : SystemState where
  elevators := fun i =>
    if i = 4 then
      { initElevator 4 with
        door_open := true
        current_floor_idx := 5
        last_action_time := sec 10
        last_arrive_time := ms 9600
        last_open_time := sec 10 }
    else initElevator i
  passengers := fun _ => none
  active_receives := []

/-- Elevator 5 at the end of its SCHE stop: door re-closed at 6.5 at the
scheduled target F3, SCHE accepted at 1.0; only SCHE-END is left. -/
def exScheEndSt : SystemState where
  elevators := fun i =>
    if i = 5 then
      { initElevator 5 with
        mode := ElevatorMode.SCHE_STOPPING
        current_floor_idx := 6
        speed := ms 300
        sche_request_time := sec 1
        sche_accept_time := sec 1
        sche_target_floor_idx := some 6
        sche_temp_speed := some (ms 300)
        sche_begin_time := sec 2
        last_action_time := ms 6500
        last_arrive_time := sec 5
        last_open_time := ms 5500
        last_close_time := ms 6500 }
    else initElevator i
  passengers := fun _ => none
  active_receives := []

/-- Passenger 200 waiting at F1 for elevator 5 (received at 3.0), whose
door is open at F1. -/
def exInSt : SystemState where
  elevators := fun i =>
    if i = 5 then
      { initElevator 5 with
        door_open := true
        last_action_time := sec 3
        last_open_time := sec 3 }
    else initElevator i
  passengers := fun i =>
    if i = 200 then
      some { exPassenger100 with
        id := 200
        status := PassengerStatus.WAITING
        elevator_id := some 5
        last_receive_time := sec 3 }
    else none
  active_receives := [(200, 5, sec 3)]

/-- Passenger 201 inside elevator 5, which stands at the destination F3
with the door open. -/
def exOutSt : SystemState where
  elevators := fun i =>
    if i = 5 then
      { initElevator 5 with
        door_open := true
        current_floor_idx := 6
        passengers := [201]
        last_action_time := ms 6500
        last_arrive_time := sec 6
        last_open_time := ms 6500 }
    else initElevator i
  passengers := fun i =>
    if i = 201 then
      some { exPassenger100 with
        id := 201
        status := PassengerStatus.INSIDE
        elevator_id := some 5
        current_floor_idx := 4 }
    else none
  active_receives := [(201, 5, sec 3)]

/-- Elevators 1 and 2 in UPDATE_PENDING with five intervening ARRIVEs
already counted on each side (the counter the validators never read). -/
def exUpdPendSt : SystemState where
  elevators := fun i =>
    if i = 1 then
      { initElevator 1 with
        mode := ElevatorMode.UPDATE_PENDING
        update_partner_id := some 2
        update_request_time := sec 9
        update_accept_time := sec 9
        update_target_floor_idx := some 6
        update_arrive_count_since_accept := 5 }
    else if i = 2 then
      { initElevator 2 with
        mode := ElevatorMode.UPDATE_PENDING
        update_partner_id := some 1
        update_request_time := sec 9
        update_accept_time := sec 9
        update_target_floor_idx := some 6
        update_arrive_count_since_accept := 5 }
    else initElevator i
  passengers := fun _ => none
  active_receives := []

/-- Scorer fixture: two passengers in the input (ids 1 and 2). -/
def exReqs : List ReqEntry :=
  [⟨1, 1, 5⟩, ⟨2, 2, 3⟩]

/-- Scorer fixture: only passenger 1 has a successful OUT-S, at 11.0. -/
def exComps : List CompEntry :=
  [⟨1, 11⟩]

/-- The state after the accepted `SCHE-BEGIN-1` at 6.0 on `exSchePendSt`. -/
def exScheMovSt : SystemState :=
  (checkScheBegin (sec 6) 1 exSchePendSt).toOption.getD initState

/-- The state after the accepted `SCHE-END-5` at 7.0 on `exScheEndSt`. -/
def exAfterScheEnd : SystemState :=
  (checkScheEnd (sec 7) 5 exScheEndSt).toOption.getD initState

/-- The state after the accepted `RECEIVE-100-3` at 12.0 on `exUpdSt`
(elevator 3 is idle in NORMAL mode there). -/
def exAfterReceive : SystemState :=
  (checkReceive (sec 12) 100 3 exUpdSt).toOption.getD initState

/-- The state after the accepted `IN-200-F1-5` at 4.0 on `exInSt`. -/
def exAfterIn : SystemState :=
  (checkIn (sec 4) 200 4 5 exInSt).toOption.getD initState

/-- The state after the accepted `OUT-S-201-F3-5` at 7.0 on `exOutSt`. -/
def exAfterOut : SystemState :=
  (checkOut (sec 7) true 201 6 5 exOutSt).toOption.getD initState

/-- The state after the accepted `ARRIVE-F5-1` at 11.7 on `exAfterUpdEnd`
(carriage A, one floor up from its post-update position F4). -/
def exAfterArr : SystemState :=
  (checkArrive (ms 11700) 8 1 exAfterUpdEnd).toOption.getD initState

/-- The state after the accepted `ARRIVE-F2-1` at 0.4 on the initial world
(an empty elevator with no live receive). -/
def exArr400 : SystemState :=
  (checkArrive (ms 400) 5 1 initState).toOption.getD initState

/-- The state after the accepted `ARRIVE-F2-1` at 10.0 on `exUpdPendSt`
(elevator 1 in UPDATE_PENDING). -/
def exUpdPendArr : SystemState :=
  (checkArrive (sec 10) 5 1 exUpdPendSt).toOption.getD initState

/-- Elevator 6 in SCHE_PENDING with three ARRIVEs already counted since
SCHE-ACCEPT (one more than the limit `check_sche_begin` enforces). -/
def exSchePend3St : SystemState where
  elevators := fun i =>
    if i = 6 then
      { initElevator 6 with
        mode := ElevatorMode.SCHE_PENDING
        sche_request_time := sec 1
        sche_accept_time := sec 1
        sche_target_floor_idx := some 6
        sche_temp_speed := some (ms 300)
        sche_arrive_count_since_accept := 3 }
    else initElevator i
  passengers := fun _ => none
  active_receives := []

/-! ## Helper lemmas -/

lemma setElevatorAt_elevators (st : SystemState) (key : Nat) (e : Elevator) (i : Nat) :
    (setElevatorAt st key e).elevators i = if i = key then e else st.elevators i :=
  rfl

lemma setPassengerAt_elevators (st : SystemState) (key : Nat) (p : Passenger) :
    (setPassengerAt st key p).elevators = st.elevators :=
  rfl

lemma cancelStep_elevators (acc : SystemState) (r : Nat × Nat × Int) :
    (cancelStep acc r).elevators = acc.elevators := by
  unfold cancelStep
  split
  · split <;> rfl
  · rfl

lemma foldl_cancelStep_elevators (l : List (Nat × Nat × Int)) (st : SystemState) :
    (l.foldl cancelStep st).elevators = st.elevators := by
  induction l generalizing st with
  | nil => rfl
  | cons r l ih =>
    show ((l.foldl cancelStep (cancelStep st r)).elevators) = st.elevators
    rw [ih (cancelStep st r), cancelStep_elevators]

lemma cancelReceivesFor_elevators (eids : List Nat) (st : SystemState) :
    (cancelReceivesFor eids st).elevators = st.elevators := by
  unfold cancelReceivesFor
  exact foldl_cancelStep_elevators _ _

lemma checkScheAccept_ok_shape {t sp tf : Int} {e : Nat} {st st' : SystemState}
    (h : checkScheAccept t e sp tf st = Except.ok st') :
    st' = setElevatorAt st e { st.elevators e with
      mode := ElevatorMode.SCHE_PENDING
      sche_request_time := t
      sche_accept_time := t
      sche_target_floor_idx := some tf
      sche_temp_speed := some sp
      sche_arrive_count_since_accept := 0 } := by
  simp only [checkScheAccept] at h
  split at h
  · exact Except.noConfusion h
  · split at h
    · exact Except.noConfusion h
    · injection h with h
      exact h.symm

lemma checkScheBegin_ok_shape {t : Int} {e : Nat} {st st' : SystemState}
    (h : checkScheBegin t e st = Except.ok st') :
    st' = cancelReceivesFor [e] (setElevatorAt st e { st.elevators e with
      mode := ElevatorMode.SCHE_MOVING
      speed := (st.elevators e).sche_temp_speed.getD (st.elevators e).speed
      sche_begin_time := t }) := by
  simp only [checkScheBegin] at h
  split at h
  · exact Except.noConfusion h
  · split at h
    · exact Except.noConfusion h
    · split at h
      · exact Except.noConfusion h
      · injection h with h
        exact h.symm

lemma checkScheEnd_ok_shape {t : Int} {e : Nat} {st st' : SystemState}
    (h : checkScheEnd t e st = Except.ok st') :
    st' = setElevatorAt st e { st.elevators e with
      mode := ElevatorMode.NORMAL
      speed := DEFAULT_SPEED
      sche_request_time := sec (-1)
      sche_accept_time := sec (-1)
      sche_target_floor_idx := none
      sche_temp_speed := none
      sche_begin_time := sec (-1)
      sche_arrive_count_since_accept := 0 } := by
  simp only [checkScheEnd] at h
  split at h
  · exact Except.noConfusion h
  · split at h
    · exact Except.noConfusion h
    · split at h
      · exact Except.noConfusion h
      · split at h
        · exact Except.noConfusion h
        · split at h
          · exact Except.noConfusion h
          · split at h
            · exact Except.noConfusion h
            · injection h with h
              exact h.symm

lemma checkReceive_ok_last_action {t : Int} {p e : Nat} {st st' : SystemState}
    (h : checkReceive t p e st = Except.ok st') (i : Nat) :
    (st'.elevators i).last_action_time = (st.elevators i).last_action_time := by
  simp only [checkReceive] at h
  split at h
  · exact Except.noConfusion h
  · split at h
    · exact Except.noConfusion h
    · split at h
      · exact Except.noConfusion h
      · split at h
        · exact Except.noConfusion h
        · injection h with h
          subst h
          rfl

set_option maxHeartbeats 1600000 in
lemma checkIn_ok_last_action {t : Int} {p : Nat} {f : Int} {e : Nat} {st st' : SystemState}
    (h : checkIn t p f e st = Except.ok st') (i : Nat) :
    (st'.elevators i).last_action_time = (st.elevators i).last_action_time := by
  simp only [checkIn] at h
  split at h
  · exact Except.noConfusion h
  · split at h
    · exact Except.noConfusion h
    · split at h
      · exact Except.noConfusion h
      · split at h
        · exact Except.noConfusion h
        · split at h
          · exact Except.noConfusion h
          · split at h
            · exact Except.noConfusion h
            · split at h
              · exact Except.noConfusion h
              · split at h
                · exact Except.noConfusion h
                · split at h
                  · exact Except.noConfusion h
                  · split at h
                    · exact Except.noConfusion h
                    · split at h
                      · exact Except.noConfusion h
                      · injection h with h
                        subst h
                        by_cases hie : i = e <;>
                          simp [setElevatorAt, setPassengerAt, hie]

set_option maxHeartbeats 1600000 in
lemma checkOut_ok_last_action {t : Int} {success : Bool} {p : Nat} {f : Int} {e : Nat}
    {st st' : SystemState}
    (h : checkOut t success p f e st = Except.ok st') (i : Nat) :
    (st'.elevators i).last_action_time = (st.elevators i).last_action_time := by
  simp only [checkOut] at h
  split at h
  · exact Except.noConfusion h
  · split at h
    · exact Except.noConfusion h
    · split at h
      · exact Except.noConfusion h
      · split at h
        · exact Except.noConfusion h
        · split at h
          · exact Except.noConfusion h
          · split at h
            · exact Except.noConfusion h
            · injection h with h
              subst h
              by_cases hie : i = e <;>
                simp [setElevatorAt, setPassengerAt, hie]

lemma checkArrive_ok_facts {t f : Int} {e : Nat} {st st' : SystemState}
    (h : checkArrive t f e st = Except.ok st') :
    (f - (st.elevators e).current_floor_idx).natAbs = 1 ∧
    (st.elevators e).speed - TIME_PRECISION ≤ t - (st.elevators e).last_action_time ∧
    doubleArriveCheck f e (st.elevators e) st = Except.ok () ∧
    st' = setElevatorAt st e (arrivedElevator t f (st.elevators e)) := by
  simp only [checkArrive] at h
  split at h
  · exact Except.noConfusion h
  split at h
  · exact Except.noConfusion h
  split at h
  · exact Except.noConfusion h
  split at h
  · exact Except.noConfusion h
  split at h
  · exact Except.noConfusion h
  split at h
  · exact Except.noConfusion h
  split at h
  · exact Except.noConfusion h
  rename_i hone hspeed x val heq
  injection h with h
  refine ⟨not_not.mp hone, not_lt.mp hspeed, ?_, h.symm⟩
  cases val
  exact heq

lemma doubleArriveCheck_ok_collision {f : Int} {e : Nat} {el : Elevator}
    {st : SystemState} {pid : Nat}
    (h : doubleArriveCheck f e el st = Except.ok ())
    (hmode : el.mode = ElevatorMode.DOUBLE_A ∨ el.mode = ElevatorMode.DOUBLE_B)
    (hpart : el.double_partner_id = some pid) :
    ¬ f = (st.elevators pid).current_floor_idx := by
  simp only [doubleArriveCheck] at h
  split at h
  case isFalse hm => exact absurd hmode hm
  split at h
  · rename_i heq
    rw [hpart] at heq
    exact Option.noConfusion heq
  · rename_i pid2 heq
    rw [hpart] at heq
    injection heq with heq
    subst heq
    split at h
    · exact Except.noConfusion h
    · rename_i hcol
      exact hcol

lemma checkUpdateEnd_ok_shape {t : Int} {a b : Nat} {st st' : SystemState}
    (h : checkUpdateEnd t a b st = Except.ok st') :
    st' = setElevatorAt (setElevatorAt st a
        (carriageA_record ((st.elevators a).update_target_floor_idx.getD 0) b
          (st.elevators a))) b
        (carriageB_record ((st.elevators a).update_target_floor_idx.getD 0) a
          (st.elevators b)) := by
  simp only [checkUpdateEnd] at h
  split at h
  · exact Except.noConfusion h
  split at h
  · exact Except.noConfusion h
  split at h
  · exact Except.noConfusion h
  split at h
  · exact Except.noConfusion h
  split at h
  · exact Except.noConfusion h
  split at h
  · exact Except.noConfusion h
  split at h
  · exact Except.noConfusion h
  injection h with h
  exact h.symm

lemma matchSumR_nil_comps (f : ReqEntry → CompEntry → ℚ) (reqs : List ReqEntry) :
    matchSumR [] f reqs = 0 := by
  induction reqs with
  | nil => rfl
  | cons r rs ih => simp [matchSumR, findComp, ih]

lemma matchSumR_cons_notmem (c : CompEntry) (cs : List CompEntry)
    (f : ReqEntry → CompEntry → ℚ) (rs : List ReqEntry)
    (hk : ∀ r ∈ rs, ¬ r.pid = c.pid) :
    matchSumR (c :: cs) f rs = matchSumR cs f rs := by
  induction rs with
  | nil => rfl
  | cons r rs ih =>
    have hr : ¬ r.pid = c.pid := hk r (List.mem_cons_self r rs)
    have hrest : ∀ x ∈ rs, ¬ x.pid = c.pid :=
      fun x hx => hk x (List.mem_cons_of_mem r hx)
    have hfind : findComp (c :: cs) r.pid = findComp cs r.pid := by
      apply List.find?_cons_of_neg
      simp
      exact fun hh => hr hh.symm
    simp only [matchSumR, hfind, ih hrest]

lemma matchSumR_cons (c : CompEntry) (cs : List CompEntry)
    (f : ReqEntry → CompEntry → ℚ) (reqs : List ReqEntry)
    (hr : (reqs.map ReqEntry.pid).Nodup)
    (hnot : ¬ c.pid ∈ cs.map CompEntry.pid) :
    matchSumR (c :: cs) f reqs =
      (match findReq reqs c.pid with
       | some r => f r c
       | none => 0) + matchSumR cs f reqs := by
  induction reqs with
  | nil => simp [matchSumR, findReq]
  | cons r rs ih =>
    have hnodup : (rs.map ReqEntry.pid).Nodup := (List.nodup_cons.mp hr).2
    have hrnot : ¬ r.pid ∈ rs.map ReqEntry.pid := (List.nodup_cons.mp hr).1
    by_cases hpid : r.pid = c.pid
    · have h1 : findComp (c :: cs) r.pid = some c := by
        apply List.find?_cons_of_pos
        simp [hpid]
      have h2 : findComp cs r.pid = none := by
        apply List.find?_eq_none.mpr
        intro x hx
        simp
        intro hxe
        rw [hpid] at hxe
        exact hnot (hxe ▸ List.mem_map_of_mem CompEntry.pid hx)
      have h3 : findReq (r :: rs) c.pid = some r := by
        apply List.find?_cons_of_pos
        simp [hpid]
      have h4 : matchSumR (c :: cs) f rs = matchSumR cs f rs := by
        apply matchSumR_cons_notmem
        intro x hx hxc
        rw [← hpid] at hxc
        exact hrnot (hxc ▸ List.mem_map_of_mem ReqEntry.pid hx)
      simp only [matchSumR, h1, h2, h3, h4]
      ring
    · have h1 : findComp (c :: cs) r.pid = findComp cs r.pid := by
        apply List.find?_cons_of_neg
        simp
        exact fun hh => hpid hh.symm
      have h3 : findReq (r :: rs) c.pid = findReq rs c.pid := by
        apply List.find?_cons_of_neg
        simp
        exact hpid
      simp only [matchSumR, h1, h3, ih hnodup]
      ring

/-- The completion-side accumulation loop of the scorer equals the same
sum taken from the request-table side, whenever both tables have
duplicate-free key sets (always true of Python dicts). -/
lemma matchSum_comm (f : ReqEntry → CompEntry → ℚ)
    (reqs : List ReqEntry) (comps : List CompEntry)
    (hr : (reqs.map ReqEntry.pid).Nodup) (hc : (comps.map CompEntry.pid).Nodup) :
    matchSumC reqs f comps = matchSumR comps f reqs := by
  induction comps with
  | nil => simp [matchSumC, matchSumR_nil_comps]
  | cons c cs ih =>
    have h1 : ¬ c.pid ∈ cs.map CompEntry.pid := (List.nodup_cons.mp hc).1
    have h2 : (cs.map CompEntry.pid).Nodup := (List.nodup_cons.mp hc).2
    rw [matchSumC, ih h2, matchSumR_cons c cs f reqs hr h1]

/-! ## Claim theorems -/

/-- Claim C1, counterexample.  The claim says that after an accepted
UPDATE-END on the pair (1, 2) exactly one of the two elevator records is in
DISABLED mode and every subsequent ARRIVE, OPEN, CLOSE, or RECEIVE naming
that elevator is rejected.  In fact after the accepted UPDATE-END at 11.5
the record of elevator 1 is in mode DOUBLE_A and that of elevator 2 in
DOUBLE_B — neither record is DISABLED — and both a subsequent RECEIVE and a
subsequent ARRIVE naming elevator 1 are accepted. -/
theorem C1_counterexample :
    checkUpdateEnd (ms 11500) 1 2 exUpdSt = Except.ok exAfterUpdEnd ∧
    (exAfterUpdEnd.elevators 1).mode = ElevatorMode.DOUBLE_A ∧
    (exAfterUpdEnd.elevators 2).mode = ElevatorMode.DOUBLE_B ∧
    (checkReceive (sec 12) 100 1 exAfterUpdEnd).isOk = true ∧
    (checkArrive (ms 11700) 8 1 exAfterUpdEnd).isOk = true :=
  ⟨rfl, by decide, by decide, by decide, by decide⟩

/-- Claim C1, amended.  After an accepted UPDATE-END on a pair (a, b) with
a ≠ b, the record of elevator a is in mode DOUBLE_A and the record of
elevator b in mode DOUBLE_B; no elevator record is left in DISABLED mode
(the source assigns DISABLED to the record of a and then immediately
re-purposes the same record as carriage A), so later events naming a are
validated under the double-carriage rules rather than rejected outright. -/
theorem C1_amended_no_disabled_record {t : Int} {a b : Nat} {st st' : SystemState}
    (hab : ¬ a = b) (h : checkUpdateEnd t a b st = Except.ok st') :
    (st'.elevators a).mode = ElevatorMode.DOUBLE_A ∧
    (st'.elevators b).mode = ElevatorMode.DOUBLE_B ∧
    ¬ (st'.elevators a).mode = ElevatorMode.DISABLED ∧
    ¬ (st'.elevators b).mode = ElevatorMode.DISABLED := by
  have hs := checkUpdateEnd_ok_shape h
  subst hs
  simp [setElevatorAt, carriageA_record, carriageB_record, hab]

/-- Witness for the amended claim C1, at the concrete UPDATE-END of
`exUpdSt`. -/
theorem C1_amended_witness :
    ¬ (1 : Nat) = 2 ∧
    ((exAfterUpdEnd.elevators 1).mode = ElevatorMode.DOUBLE_A ∧
     (exAfterUpdEnd.elevators 2).mode = ElevatorMode.DOUBLE_B ∧
     ¬ (exAfterUpdEnd.elevators 1).mode = ElevatorMode.DISABLED ∧
     ¬ (exAfterUpdEnd.elevators 2).mode = ElevatorMode.DISABLED) :=
  ⟨by decide,
   @C1_amended_no_disabled_record (ms 11500) 1 2 exUpdSt exAfterUpdEnd (by decide) rfl⟩

/-- Claim C2, exhibiting the code bug.  The claim (and judge.py's own
comment above `check_sche_end`, together with its unused constant
`SCHE_STOP_TIME`) requires a CLOSE during SCHE_STOPPING to come at least
1.0 − 1e-6 s after the OPEN at the scheduled target; but `check_close`
only enforces `MIN_DOOR_TIME`: here elevator 3 is in SCHE_STOPPING, opened
at 10.0, and the CLOSE at 10.5 — earlier than `SCHE_STOP_TIME` after the
OPEN — is accepted. -/
theorem C2_close_during_sche_stop_unchecked :
    (exScheStopSt.elevators 3).mode = ElevatorMode.SCHE_STOPPING ∧
    (exScheStopSt.elevators 3).last_open_time = sec 10 ∧
    ms 10500 - sec 10 < SCHE_STOP_TIME ∧
    (checkClose (ms 10500) 6 3 exScheStopSt).isOk = true := by
  decide

/-- Claim C3, exhibiting the code bug.  The claim (and the comment inside
`check_receive` about the empty-elevator movement constraint) says an
ARRIVE of an empty elevator is accepted only if the elevator has a live
receive or is in a scheduling/update task; but no validator performs that
check: in the initial world elevator 1 is empty, in NORMAL mode, with no
active receive anywhere, and its ARRIVE at 0.4 is accepted. -/
theorem C3_empty_arrive_accepted :
    (initState.elevators 1).passengers = [] ∧
    initState.active_receives = [] ∧
    (initState.elevators 1).mode = ElevatorMode.NORMAL ∧
    (checkArrive (ms 400) 5 1 initState).isOk = true := by
  decide

/-- Claim C4, exhibiting the code bug.  The claim says UPDATE-ACCEPT must
be rejected for an elevator that ever completed a SCHE cycle; the Python
error message of `check_update_accept` states the same intent, but
`check_sche_end` resets `sche_request_time` to −1, the very marker
`check_update_accept` tests, so the check never fires for a completed
cycle: after the full accepted SCHE cycle of elevator 1 in
`exC4BeforeUpdate`, the `UPDATE-ACCEPT-1-2` at 5.0 is accepted. -/
theorem C4_update_accept_after_completed_sche :
    exC4BeforeUpdate = Except.ok exC4After ∧
    (exC4After.elevators 1).sche_request_time = sec (-1) ∧
    (exC4After.elevators 1).mode = ElevatorMode.NORMAL ∧
    (checkUpdateAccept (sec 5) 1 2 6 exC4After).isOk = true :=
  ⟨rfl, by decide, by decide, by decide⟩

/-- Claim C6, counterexample.  The claim says an accepted SCHE-ACCEPT sets
the elevator's `last_action_time` to the event timestamp.  In fact the
accepted `SCHE-ACCEPT-1-0.3-F3` at 5.0 on the initial world leaves
`last_action_time` at 0 (the assignment is commented out in judge.py), not
at the event timestamp. -/
theorem C6_counterexample :
    checkScheAccept (sec 5) 1 (ms 300) 6 initState = Except.ok exSchePendSt ∧
    (exSchePendSt.elevators 1).last_action_time = 0 ∧
    ¬ (0 : Int) = sec 5 :=
  ⟨rfl, by decide, by decide⟩

/-- Claim C6, amended.  Accepted SCHE-ACCEPT, SCHE-BEGIN, and SCHE-END
events leave every elevator's `last_action_time` unchanged (their
assignments are commented out in judge.py), exactly as RECEIVE, IN, and
OUT do; only ARRIVE, OPEN, and CLOSE advance the per-elevator action
clock. -/
theorem C6_amended_action_clock :
    (∀ (t sp tf : Int) (e : Nat) (st st' : SystemState),
      checkScheAccept t e sp tf st = Except.ok st' →
      ∀ i, (st'.elevators i).last_action_time = (st.elevators i).last_action_time) ∧
    (∀ (t : Int) (e : Nat) (st st' : SystemState),
      checkScheBegin t e st = Except.ok st' →
      ∀ i, (st'.elevators i).last_action_time = (st.elevators i).last_action_time) ∧
    (∀ (t : Int) (e : Nat) (st st' : SystemState),
      checkScheEnd t e st = Except.ok st' →
      ∀ i, (st'.elevators i).last_action_time = (st.elevators i).last_action_time) ∧
    (∀ (t : Int) (p e : Nat) (st st' : SystemState),
      checkReceive t p e st = Except.ok st' →
      ∀ i, (st'.elevators i).last_action_time = (st.elevators i).last_action_time) ∧
    (∀ (t : Int) (p : Nat) (f : Int) (e : Nat) (st st' : SystemState),
      checkIn t p f e st = Except.ok st' →
      ∀ i, (st'.elevators i).last_action_time = (st.elevators i).last_action_time) ∧
    (∀ (t : Int) (success : Bool) (p : Nat) (f : Int) (e : Nat) (st st' : SystemState),
      checkOut t success p f e st = Except.ok st' →
      ∀ i, (st'.elevators i).last_action_time = (st.elevators i).last_action_time) := by
  refine ⟨?_, ?_, ?_, ?_, ?_, ?_⟩
  · intro t sp tf e st st' h i
    have hs := checkScheAccept_ok_shape h
    subst hs
    by_cases hie : i = e <;> simp [setElevatorAt, hie]
  · intro t e st st' h i
    have hs := checkScheBegin_ok_shape h
    subst hs
    rw [congrFun (cancelReceivesFor_elevators [e] _) i]
    by_cases hie : i = e <;> simp [setElevatorAt, hie]
  · intro t e st st' h i
    have hs := checkScheEnd_ok_shape h
    subst hs
    by_cases hie : i = e <;> simp [setElevatorAt, hie]
  · intro t p e st st' h i
    exact checkReceive_ok_last_action h i
  · intro t p f e st st' h i
    exact checkIn_ok_last_action h i
  · intro t success p f e st st' h i
    exact checkOut_ok_last_action h i

/-- Witness for the amended claim C6: one accepted event of each of the
six kinds, each leaving the action clock of the elevator it names
unchanged. -/
theorem C6_amended_witness :
    (exSchePendSt.elevators 1).last_action_time =
      (initState.elevators 1).last_action_time ∧
    (exScheMovSt.elevators 1).last_action_time =
      (exSchePendSt.elevators 1).last_action_time ∧
    (exAfterScheEnd.elevators 5).last_action_time =
      (exScheEndSt.elevators 5).last_action_time ∧
    (exAfterReceive.elevators 3).last_action_time =
      (exUpdSt.elevators 3).last_action_time ∧
    (exAfterIn.elevators 5).last_action_time =
      (exInSt.elevators 5).last_action_time ∧
    (exAfterOut.elevators 5).last_action_time =
      (exOutSt.elevators 5).last_action_time :=
  ⟨C6_amended_action_clock.1 (sec 5) (ms 300) 6 1 initState exSchePendSt rfl 1,
   C6_amended_action_clock.2.1 (sec 6) 1 exSchePendSt exScheMovSt rfl 1,
   C6_amended_action_clock.2.2.1 (sec 7) 5 exScheEndSt exAfterScheEnd rfl 5,
   C6_amended_action_clock.2.2.2.1 (sec 12) 100 3 exUpdSt exAfterReceive rfl 3,
   C6_amended_action_clock.2.2.2.2.1 (sec 4) 200 4 5 exInSt exAfterIn rfl 5,
   C6_amended_action_clock.2.2.2.2.2 (sec 7) true 201 6 5 exOutSt exAfterOut rfl 5⟩

/-- Claim C7, confirmed.  Immediately after an accepted UPDATE-END the two
double-carriage partners stand on distinct floors with the B carriage
strictly below its A partner, and every accepted ARRIVE of either carriage
preserves that order (one-step movement plus the collision check make a
crossing impossible). -/
theorem C7_double_carriage_order :
    (∀ (t : Int) (a b : Nat) (st st' : SystemState), ¬ a = b →
      checkUpdateEnd t a b st = Except.ok st' →
      (st'.elevators b).current_floor_idx < (st'.elevators a).current_floor_idx) ∧
    (∀ (t f : Int) (e a b : Nat) (st st' : SystemState), ¬ a = b →
      (st.elevators a).mode = ElevatorMode.DOUBLE_A →
      (st.elevators b).mode = ElevatorMode.DOUBLE_B →
      (st.elevators a).double_partner_id = some b →
      (st.elevators b).double_partner_id = some a →
      (st.elevators b).current_floor_idx < (st.elevators a).current_floor_idx →
      (e = a ∨ e = b) →
      checkArrive t f e st = Except.ok st' →
      (st'.elevators b).current_floor_idx < (st'.elevators a).current_floor_idx) := by
  constructor
  · intro t a b st st' hab h
    have hs := checkUpdateEnd_ok_shape h
    subst hs
    simp [setElevatorAt, carriageA_record, carriageB_record, hab]
    omega
  · intro t f e a b st st' hab hma hmb hpa hpb horder he h
    obtain ⟨hone, -, hdc, hshape⟩ := checkArrive_ok_facts h
    subst hshape
    rcases he with he | he
    · subst he
      have hcol := doubleArriveCheck_ok_collision hdc (Or.inl hma) hpa
      have hba : ¬ b = e := fun hh => hab hh.symm
      simp [setElevatorAt_elevators, hba, arrivedElevator]
      omega
    · subst he
      have hcol := doubleArriveCheck_ok_collision hdc (Or.inr hmb) hpb
      have hae : ¬ a = e := hab
      simp [setElevatorAt_elevators, hae, arrivedElevator]
      omega

/-- Witness for claim C7: the concrete UPDATE-END of `exUpdSt` leaves
carriage 2 below carriage 1, and the accepted ARRIVE of carriage 1 at 11.7
keeps it so. -/
theorem C7_witness :
    (exAfterUpdEnd.elevators 2).current_floor_idx <
      (exAfterUpdEnd.elevators 1).current_floor_idx ∧
    (exAfterArr.elevators 2).current_floor_idx <
      (exAfterArr.elevators 1).current_floor_idx :=
  ⟨C7_double_carriage_order.1 (ms 11500) 1 2 exUpdSt exAfterUpdEnd (by decide) rfl,
   C7_double_carriage_order.2 (ms 11700) 8 1 1 2 exAfterUpdEnd exAfterArr
     (by decide) (by decide) (by decide) (by decide) (by decide) (by decide)
     (Or.inl rfl) rfl⟩

/-- Claim C8, confirmed.  Every ARRIVE accepted by the validator moved
exactly one floor and took at least `speed − TIME_PRECISION` since the
elevator's previous action; an ARRIVE violating either condition is not
accepted (this is the contrapositive of the stated implication). -/
theorem C8_arrive_step_and_speed {t f : Int} {e : Nat} {st st' : SystemState}
    (h : checkArrive t f e st = Except.ok st') :
    (f - (st.elevators e).current_floor_idx).natAbs = 1 ∧
    (st.elevators e).speed - TIME_PRECISION ≤ t - (st.elevators e).last_action_time :=
  ⟨(checkArrive_ok_facts h).1, (checkArrive_ok_facts h).2.1⟩

/-- Witness for claim C8, at the accepted `ARRIVE-F2-1` at 0.4 on the
initial world. -/
theorem C8_witness :
    ((5 : Int) - (initState.elevators 1).current_floor_idx).natAbs = 1 ∧
    (initState.elevators 1).speed - TIME_PRECISION ≤
      ms 400 - (initState.elevators 1).last_action_time :=
  @C8_arrive_step_and_speed (ms 400) 5 1 initState exArr400 rfl

/-- Claim C9, confirmed.  With all other preconditions holding, a CLOSE
exactly 0.4 s after the OPEN is accepted while 0.399 s is rejected, and a
SCHE-END exactly 6.0 s after the SCHE-ACCEPT is accepted while 6.001 s is
rejected. -/
theorem C9_boundary_timings :
    (checkClose (ms 10400) 5 4 exOpenSt).isOk = true ∧
    (checkClose (ms 10399) 5 4 exOpenSt).isOk = false ∧
    (checkScheEnd (sec 7) 5 exScheEndSt).isOk = true ∧
    (checkScheEnd (ms 7001) 5 exScheEndSt).isOk = false := by
  decide

/-- Claim C10, confirmed.  UPDATE-BEGIN is accepted whenever both
elevators are in UPDATE_PENDING with matching partners, closed doors and
empty cars — for every value of the per-elevator update arrive counter,
which no validator reads; each ARRIVE in UPDATE_PENDING does increment
that counter; and, by contrast, SCHE-BEGIN rejects a counter above 2. -/
theorem C10_update_begin_ignores_arrive_count :
    (∀ (t : Int) (a b : Nat) (st : SystemState),
      (st.elevators a).mode = ElevatorMode.UPDATE_PENDING →
      (st.elevators b).mode = ElevatorMode.UPDATE_PENDING →
      (st.elevators a).update_partner_id = some b →
      (st.elevators b).update_partner_id = some a →
      (st.elevators a).door_open = false →
      (st.elevators b).door_open = false →
      (st.elevators a).passengers = [] →
      (st.elevators b).passengers = [] →
      (checkUpdateBegin t a b st).isOk = true) ∧
    (∀ (t f : Int) (e : Nat) (st st' : SystemState),
      (st.elevators e).mode = ElevatorMode.UPDATE_PENDING →
      checkArrive t f e st = Except.ok st' →
      (st'.elevators e).update_arrive_count_since_accept =
        (st.elevators e).update_arrive_count_since_accept + 1) ∧
    (∀ (t : Int) (e : Nat) (st : SystemState),
      (st.elevators e).mode = ElevatorMode.SCHE_PENDING →
      (st.elevators e).door_open = false →
      2 < (st.elevators e).sche_arrive_count_since_accept →
      (checkScheBegin t e st).isOk = false) := by
  refine ⟨?_, ?_, ?_⟩
  · intro t a b st hma hmb hpa hpb hda hdb hea heb
    simp [checkUpdateBegin, hma, hmb, hpa, hpb, hda, hdb, hea, heb, Except.isOk,
      Except.toBool]
  · intro t f e st st' hmode h
    obtain ⟨-, -, -, hshape⟩ := checkArrive_ok_facts h
    subst hshape
    simp [setElevatorAt, arrivedElevator, hmode]
  · intro t e st hmode hdoor hcount
    simp [checkScheBegin, hmode, hdoor, hcount, gt_iff_lt, Except.isOk, Except.toBool]

/-- Witness for claim C10: on `exUpdPendSt` (arrive counters at 5) the
UPDATE-BEGIN is accepted; the accepted ARRIVE of elevator 1 there bumps
its counter from 5 to 6; and on `exSchePend3St` (counter 3) the
SCHE-BEGIN is rejected. -/
theorem C10_witness :
    (checkUpdateBegin (sec 10) 1 2 exUpdPendSt).isOk = true ∧
    (exUpdPendArr.elevators 1).update_arrive_count_since_accept =
      (exUpdPendSt.elevators 1).update_arrive_count_since_accept + 1 ∧
    (checkScheBegin (sec 2) 6 exSchePend3St).isOk = false :=
  ⟨C10_update_begin_ignores_arrive_count.1 (sec 10) 1 2 exUpdPendSt
     (by decide) (by decide) (by decide) (by decide) (by decide) (by decide)
     (by decide) (by decide),
   C10_update_begin_ignores_arrive_count.2.1 (sec 10) 5 1 exUpdPendSt exUpdPendArr
     (by decide) rfl,
   C10_update_begin_ignores_arrive_count.2.2 (sec 2) 6 exSchePend3St
     (by decide) (by decide) (by decide)⟩

/-- Claim C5, counterexample.  The claim says the scorer's WT averages
over all passengers of the input and is reported infinite whenever a
passenger lacks a successful OUT-S.  On the two-passenger input `exReqs`
where only passenger 1 completed (`exComps`), the spec-worded WT
(`WT_specWords`) is indeed `none` (infinite), but the scorer computes the
plain finite value 10 — the weighted average over the completed passenger
alone. -/
theorem C5_counterexample :
    calculate_average_completion_time exReqs exComps = 10 ∧
    WT_specWords exReqs exComps = none := by
  constructor
  · norm_num [calculate_average_completion_time, matchSumC, findReq, exReqs, exComps,
      weightedDuration, completionWeight, List.find?]
  · norm_num [WT_specWords, findComp, exReqs, exComps, List.find?, List.all]

/-- Claim C5, amended.  The scorer's WT is the priority-weighted average
of `completion_time − request_time` across the passengers of the input
that have a successful OUT-S (walked here from the request-table side, the
orientation in which the specification words it), and it is 0.0 — never
infinite — when no passenger completed; passengers without an OUT-S are
simply excluded from the average. -/
theorem C5_amended_wt_over_completed (reqs : List ReqEntry) (comps : List CompEntry)
    (hr : (reqs.map ReqEntry.pid).Nodup) (hc : (comps.map CompEntry.pid).Nodup) :
    calculate_average_completion_time reqs comps =
      (if matchSumR comps completionWeight reqs = 0 then 0
       else matchSumR comps weightedDuration reqs /
         matchSumR comps completionWeight reqs) := by
  unfold calculate_average_completion_time
  rw [matchSum_comm weightedDuration reqs comps hr hc,
    matchSum_comm completionWeight reqs comps hr hc]

/-- Witness for the amended claim C5, at the concrete scorer input
`exReqs`/`exComps`. -/
theorem C5_amended_witness :
    (exReqs.map ReqEntry.pid).Nodup ∧ (exComps.map CompEntry.pid).Nodup ∧
    calculate_average_completion_time exReqs exComps =
      (if matchSumR exComps completionWeight exReqs = 0 then 0
       else matchSumR exComps weightedDuration exReqs /
         matchSumR exComps completionWeight exReqs) :=
  ⟨by decide, by decide,
   C5_amended_wt_over_completed exReqs exComps (by decide) (by decide)⟩

end ElevatorJudge
